import Mathlib

/-!
Shallow embedding of the iso9001 Go package (validation engine, compliance
scoring, risk register and priority model, objective/audit trackers), with
theorems checking the natural-language specification against the code.

Modelling conventions:
* Go string-typed enumerations (`RiskLevel`, `Priority`, `RiskStatus`, ...)
  are Lean `String`s with the same named constants, so that Go's
  lexicographic string comparison can be modelled faithfully.
* `time.Time` is an abstract tick count `Time := Nat`; each operation that
  calls `time.Now()` takes the current tick as an explicit argument.
  Go's zero time corresponds to tick `0` (`IsZero` is `= 0`).
* Go maps (`map[string]*T`) are association lists `List (String × T)`;
  pointer mutation of a stored record is replacement of the entry.
* Functions returning `error` return `State × Option String`
  (`none` = nil error); on the error paths the Go code returns before any
  mutation, so the returned state is the input state.
* `float64` quantities (compliance score, objective progress) are `ℚ`;
  the only float operation whose rounding matters in the embedded code is
  `int(float64(n) * 0.5)`, which is exact halving followed by truncation,
  i.e. `n / 2` on `ℕ`.
* Struct fields never read by any embedded function are omitted; all kept
  fields default to the Go zero value of their type.
-/

namespace ISO9001

/-- time.Time, abstracted to a tick count; Go's zero time is tick 0. -/
abbrev Time := Nat

/-- Go's `<` on strings: byte-wise lexicographic comparison (the embedded
string constants are ASCII, so character-wise comparison coincides). -/
def goLtChars : List Char → List Char → Bool
  | [], [] => false
  | [], _ :: _ => true
  | _ :: _, [] => false
  | a :: as, b :: bs =>
    if a < b then true
    else if b < a then false
    else goLtChars as bs

/-- Go's `s < t` on strings. -/
def goStrLt (a b : String) : Bool := goLtChars a.data b.data

/-- Go's `s >= t` on strings, as used in `GetCriticalRisks`. -/
def goStrGe (a b : String) : Bool := !(goStrLt a b)

/-! ## String-typed enumeration constants (as in the Go source) -/

def RiskLevelVeryLow : String := "very_low"
def RiskLevelLow : String := "low"
def RiskLevelMedium : String := "medium"
def RiskLevelHigh : String := "high"
def RiskLevelVeryHigh : String := "very_high"

/-- The five-level ordinal scale, in ascending order. -/
def riskLevels : List String :=
  [RiskLevelVeryLow, RiskLevelLow, RiskLevelMedium, RiskLevelHigh, RiskLevelVeryHigh]

def PriorityLow : String := "low"
def PriorityMedium : String := "medium"
def PriorityHigh : String := "high"
def PriorityCritical : String := "critical"

def RiskStatusIdentified : String := "identified"
def RiskStatusAssessed : String := "assessed"
def RiskStatusMitigated : String := "mitigated"
def RiskStatusMonitored : String := "monitored"

def OpportunityStatusIdentified : String := "identified"
def OpportunityStatusPlanned : String := "planned"
def OpportunityStatusRealized : String := "realized"

def ObjectiveStatusPlanned : String := "planned"
def ObjectiveStatusInProgress : String := "in_progress"
def ObjectiveStatusAchieved : String := "achieved"

def AuditStatusPlanned : String := "planned"
def AuditStatusInProgress : String := "in_progress"

def CommitmentQMSEffectiveness : String := "qms_effectiveness"
def CommitmentQualityPolicy : String := "quality_policy"
def CommitmentQMSIntegration : String := "qms_integration"
def CommitmentProcessApproach : String := "process_approach"
def CommitmentRiskThinking : String := "risk_based_thinking"
def CommitmentResources : String := "resources_available"
def CommitmentImportanceQMS : String := "importance_qms"
def CommitmentConformity : String := "conformity_requirements"
def CommitmentQMSResults : String := "qms_results"
def CommitmentEngagement : String := "personnel_engagement"
def CommitmentImprovement : String := "improvement"
def CommitmentCustomerFocus : String := "customer_focus"

/-! ## Domain model (iso9001.go, audit.go) -/

/-- Action to address risks or opportunities. -/
structure Action where
  ID : String := ""
  Description : String := ""
  «Type» : String := ""
  Responsible : String := ""
  Timeline : Time := 0
  Status : String := ""
  Created : Time := 0
  deriving DecidableEq, Repr

/-- Identified risk (clause 6.1). -/
structure Risk where
  ID : String := ""
  Description : String := ""
  Causes : List String := []
  Effects : List String := []
  Likelihood : String := ""
  Impact : String := ""
  Priority : String := ""
  Mitigation : List Action := []
  Status : String := ""
  Created : Time := 0
  deriving DecidableEq, Repr

/-- Identified opportunity (clause 6.1). -/
structure Opportunity where
  ID : String := ""
  Description : String := ""
  Benefits : List String := []
  Likelihood : String := ""
  Impact : String := ""
  Priority : Int := 0
  Actions : List Action := []
  Status : String := ""
  Created : Time := 0
  deriving DecidableEq, Repr

/-- External or internal issue affecting the organization (clause 4.1). -/
structure Issue where
  ID : String := ""
  Description : String := ""
  «Type» : String := ""
  Impact : String := ""
  Status : String := ""
  Created : Time := 0
  deriving DecidableEq, Repr

/-- Relevant interested party (clause 4.2). -/
structure InterestedParty where
  ID : String := ""
  Name : String := ""
  «Type» : String := ""
  Requirements : List String := []
  deriving DecidableEq, Repr

/-- Clause 4.1 / 4.2 context block. -/
structure OrganizationalContext where
  ExternalIssues : List Issue := []
  InternalIssues : List Issue := []
  InterestedParties : List InterestedParty := []
  deriving DecidableEq, Repr

structure Person where
  ID : String := ""
  Name : String := ""
  Role : String := ""
  Competence : List String := []
  Training : List String := []
  deriving DecidableEq, Repr

structure OrganizationalRole where
  ID : String := ""
  Name : String := ""
  Responsibilities : List String := []
  Authorities : List String := []
  AssignedTo : String := ""
  deriving DecidableEq, Repr

/-- Quality policy (clause 5.2). -/
structure QualityPolicy where
  ID : String := ""
  Statement : String := ""
  Objectives : String := ""
  Commitment : String := ""
  Improvement : String := ""
  Communicated : Bool := false
  Available : Bool := false
  Created : Time := 0
  Updated : Time := 0
  deriving DecidableEq, Repr

/-- Clause 5 leadership block. -/
structure Leadership where
  TopManagement : List Person := []
  QualityPolicy : Option QualityPolicy := none
  Roles : List OrganizationalRole := []
  Commitment : List String := []
  deriving DecidableEq, Repr

structure Exclusion where
  Clause : String := ""
  Description : String := ""
  Justification : String := ""
  deriving DecidableEq, Repr

/-- QMS scope (clause 4.3). -/
structure QMSScope where
  Description : String := ""
  Products : List String := []
  Services : List String := []
  Exclusions : List Exclusion := []
  Justification : String := ""
  deriving DecidableEq, Repr

structure ProcessInput where
  ID : String := ""
  Name : String := ""
  «Type» : String := ""
  Source : String := ""
  deriving DecidableEq, Repr

structure ProcessOutput where
  ID : String := ""
  Name : String := ""
  «Type» : String := ""
  Destination : String := ""
  deriving DecidableEq, Repr

structure Resource where
  ID : String := ""
  «Type» : String := ""
  Name : String := ""
  Description : String := ""
  Quantity : String := ""
  Available : Bool := false
  deriving DecidableEq, Repr

structure ProcessCriteria where
  ID : String := ""
  Name : String := ""
  Description : String := ""
  Metric : String := ""
  Target : String := ""
  deriving DecidableEq, Repr

/-- QMS process (clause 4.4). -/
structure Process where
  ID : String := ""
  Name : String := ""
  Description : String := ""
  Inputs : List ProcessInput := []
  Outputs : List ProcessOutput := []
  Resources : List Resource := []
  Responsibilities : List String := []
  Criteria : List ProcessCriteria := []
  Risks : List Risk := []
  Opportunities : List Opportunity := []
  Status : String := ""
  Created : Time := 0
  deriving DecidableEq, Repr

structure ObjectiveTarget where
  ID : String := ""
  Metric : String := ""
  Value : String := ""
  Unit : String := ""
  deriving DecidableEq, Repr

structure ObjectiveTimeline where
  StartDate : Time := 0
  TargetDate : Time := 0
  ReviewDate : Time := 0
  deriving DecidableEq, Repr

/-- Quality objective (clause 6.2). -/
structure QualityObjective where
  ID : String := ""
  Name : String := ""
  Description : String := ""
  Measurable : Bool := false
  Targets : List ObjectiveTarget := []
  Responsible : String := ""
  Timeline : ObjectiveTimeline := {}
  Status : String := ""
  Created : Time := 0
  deriving DecidableEq, Repr

/-- Overall QMS (clause 4.4). -/
structure QualityManagementSystem where
  ID : String := ""
  Scope : Option QMSScope := none
  Processes : List Process := []
  Objectives : List QualityObjective := []
  Risks : List Risk := []
  Opportunities : List Opportunity := []
  Created : Time := 0
  deriving DecidableEq, Repr

/-- Organization implementing a QMS: the root aggregate. -/
structure Organization where
  ID : String := ""
  Name : String := ""
  Context : Option OrganizationalContext := none
  Leadership : Option Leadership := none
  QMS : Option QualityManagementSystem := none
  Created : Time := 0
  Modified : Time := 0
  deriving DecidableEq, Repr

/-! ## Validation engine (validation.go) -/

/-- Validation finding with context (severity "error", "warning" or "info"). -/
structure ValidationError where
  Clause : String
  Field : String
  Message : String
  Severity : String
  deriving DecidableEq, Repr

/-- Results of validation. -/
structure ValidationResult where
  Valid : Bool
  Errors : List ValidationError
  Warnings : List ValidationError
  Infos : List ValidationError
  deriving DecidableEq, Repr

/-- A fresh result, as each clause-checker starts with. -/
def ValidationResult.empty : ValidationResult :=
  { Valid := true, Errors := [], Warnings := [], Infos := [] }

def ValidationResult.addError (r : ValidationResult) (clause field message : String) :
    ValidationResult :=
  { r with
    Errors := r.Errors ++ [{ Clause := clause, Field := field, Message := message, Severity := "error" }]
    Valid := false }

def ValidationResult.addWarning (r : ValidationResult) (clause field message : String) :
    ValidationResult :=
  { r with
    Warnings := r.Warnings ++ [{ Clause := clause, Field := field, Message := message, Severity := "warning" }] }

def ValidationResult.addInfo (r : ValidationResult) (clause field message : String) :
    ValidationResult :=
  { r with
    Infos := r.Infos ++ [{ Clause := clause, Field := field, Message := message, Severity := "info" }] }

def ValidationResult.merge (r other : ValidationResult) : ValidationResult :=
  { Errors := r.Errors ++ other.Errors
    Warnings := r.Warnings ++ other.Warnings
    Infos := r.Infos ++ other.Infos
    Valid := if !other.Valid then false else r.Valid }

/-- Loop body of the clause-4.1 issue check. -/
def issueStep (r : ValidationResult) (p : Nat × Issue) : ValidationResult :=
  let r := if p.2.Description = "" then
      r.addError "4.1" ("issue_" ++ toString p.1 ++ "_description") "Issue must have a description"
    else r
  if p.2.«Type» = "" then
    r.addError "4.1" ("issue_" ++ toString p.1 ++ "_type") "Issue must have a type (external/internal)"
  else r

/-- Clause 4.1: understanding the organization and its context. -/
def validateContext (org : Organization) : ValidationResult :=
  let result := ValidationResult.empty
  match org.Context with
  | none => result.addError "4.1" "context" "Organizational context must be defined"
  | some ctx =>
    let result := if ctx.ExternalIssues = [] then
        result.addWarning "4.1" "external_issues"
          "No external issues identified - consider reviewing legal, technological, competitive, market, cultural, social and economic environments"
      else result
    let result := if ctx.InternalIssues = [] then
        result.addWarning "4.1" "internal_issues"
          "No internal issues identified - consider reviewing values, culture, knowledge and performance"
      else result
    (ctx.ExternalIssues ++ ctx.InternalIssues).enum.foldl issueStep result

/-- Loop body of the clause-4.2 interested-party check (also tracks the
customer/supplier/regulator flags). -/
def partyStep (st : ValidationResult × Bool × Bool × Bool) (party : InterestedParty) :
    ValidationResult × Bool × Bool × Bool :=
  let (r, hasCustomers, hasSuppliers, hasRegulators) := st
  let r := if party.Name = "" then
      r.addError "4.2" "party_name" "Interested party must have a name"
    else r
  let r := if party.Requirements = [] then
      r.addWarning "4.2" ("party_" ++ party.Name ++ "_requirements")
        "No requirements specified for interested party"
    else r
  let hasCustomers := if party.«Type» = "customer" then true else hasCustomers
  let hasSuppliers :=
    if party.«Type» = "supplier" ∨ party.«Type» = "external_provider" then true else hasSuppliers
  let hasRegulators :=
    if party.«Type» = "regulator" ∨ party.«Type» = "authority" then true else hasRegulators
  (r, hasCustomers, hasSuppliers, hasRegulators)

/-- Clause 4.2: needs and expectations of interested parties. -/
def validateInterestedParties (org : Organization) : ValidationResult :=
  let result := ValidationResult.empty
  match org.Context with
  | none =>
    result.addError "4.2" "interested_parties"
      "Interested parties must be identified and their requirements determined"
  | some ctx =>
    if ctx.InterestedParties = [] then
      result.addError "4.2" "interested_parties"
        "Interested parties must be identified and their requirements determined"
    else
      let st := ctx.InterestedParties.foldl partyStep (result, false, false, false)
      let (result, hasCustomers, hasSuppliers, hasRegulators) := st
      let result := if !hasCustomers then
          result.addWarning "4.2" "customers" "No customers identified as interested parties"
        else result
      let result := if !hasSuppliers then
          result.addWarning "4.2" "suppliers"
            "No suppliers/external providers identified as interested parties"
        else result
      if !hasRegulators then
        result.addInfo "4.2" "regulators"
          "Consider identifying regulatory authorities as interested parties"
      else result

/-- Loop body of the clause-4.3 exclusion check. -/
def exclusionStep (r : ValidationResult) (p : Nat × Exclusion) : ValidationResult :=
  let r := if p.2.Clause = "" then
      r.addError "4.3" ("exclusion_" ++ toString p.1 ++ "_clause")
        "Exclusion must specify which clause is not applicable"
    else r
  if p.2.Justification = "" then
    r.addError "4.3" ("exclusion_" ++ toString p.1 ++ "_justification")
      "Exclusion must be justified and not affect organization's ability to meet requirements"
  else r

/-- Clause 4.3: determining the scope of the QMS. -/
def validateQMSScope (org : Organization) : ValidationResult :=
  let result := ValidationResult.empty
  match org.QMS with
  | none => result.addError "4.3" "scope" "QMS scope must be determined and documented"
  | some qms =>
    match qms.Scope with
    | none => result.addError "4.3" "scope" "QMS scope must be determined and documented"
    | some scope =>
      let result := if scope.Description = "" then
          result.addError "4.3" "scope_description"
            "Scope must include a description of products and services covered"
        else result
      let result := if scope.Products = [] ∧ scope.Services = [] then
          result.addError "4.3" "scope_coverage"
            "Scope must specify the types of products and services covered"
        else result
      scope.Exclusions.enum.foldl exclusionStep result

/-- Loop body of the clause-4.4 process check. -/
def processStep (r : ValidationResult) (p : Nat × Process) : ValidationResult :=
  let process := p.2
  let r := if process.Name = "" then
      r.addError "4.4" ("process_" ++ toString p.1 ++ "_name") "Process must have a name"
    else r
  let r := if process.Inputs = [] then
      r.addWarning "4.4" ("process_" ++ process.Name ++ "_inputs") "Process inputs should be defined"
    else r
  let r := if process.Outputs = [] then
      r.addWarning "4.4" ("process_" ++ process.Name ++ "_outputs") "Process outputs should be defined"
    else r
  let r := if process.Responsibilities = [] then
      r.addError "4.4" ("process_" ++ process.Name ++ "_responsibilities")
        "Process responsibilities and authorities must be assigned"
    else r
  let r := if process.Criteria = [] then
      r.addError "4.4" ("process_" ++ process.Name ++ "_criteria")
        "Process criteria and methods for monitoring must be determined"
    else r
  if process.Risks = [] then
    r.addInfo "4.4" ("process_" ++ process.Name ++ "_risks")
      "Consider identifying risks and opportunities for this process"
  else r

/-- Clause 4.4: QMS and its processes. -/
def validateQMSProcesses (org : Organization) : ValidationResult :=
  let result := ValidationResult.empty
  match org.QMS with
  | none =>
    result.addError "4.4" "processes"
      "QMS processes must be established, implemented, maintained and continually improved"
  | some qms =>
    if qms.Processes = [] then
      result.addError "4.4" "processes"
        "QMS processes must be established, implemented, maintained and continually improved"
    else
      qms.Processes.enum.foldl processStep result

/-- The twelve leadership commitments required by the clause-5.1 checker,
in the order the Go source lists them. -/
def requiredCommitments : List String :=
  [CommitmentQMSEffectiveness, CommitmentQualityPolicy, CommitmentQMSIntegration,
   CommitmentProcessApproach, CommitmentRiskThinking, CommitmentResources,
   CommitmentImportanceQMS, CommitmentConformity, CommitmentQMSResults,
   CommitmentEngagement, CommitmentImprovement, CommitmentCustomerFocus]

/-- The error finding the clause-5.1 checker emits for a missing commitment tag. -/
def missingCommitmentError (tag : String) : ValidationError :=
  { Clause := "5.1", Field := "leadership_commitment",
    Message := "Missing leadership commitment: " ++ tag, Severity := "error" }

/-- Loop body of the clause-5.1 required-commitment check; `leadership.Commitment.contains`
plays the role of the Go `commitmentMap` lookup. -/
def commitmentStep (leadership : Leadership) (r : ValidationResult) (required : String) :
    ValidationResult :=
  if leadership.Commitment.contains required then r
  else r.addError "5.1" "leadership_commitment" ("Missing leadership commitment: " ++ required)

/-- Clause 5.1: leadership and commitment. -/
def validateLeadership (org : Organization) : ValidationResult :=
  let result := ValidationResult.empty
  match org.Leadership with
  | none =>
    result.addError "5.1" "leadership" "Top management must demonstrate leadership and commitment"
  | some leadership =>
    let result := if leadership.TopManagement = [] then
        result.addError "5.1" "top_management" "Top management must be identified"
      else result
    requiredCommitments.foldl (commitmentStep leadership) result

/-- Clause 5.2: quality policy. -/
def validateQualityPolicy (org : Organization) : ValidationResult :=
  let result := ValidationResult.empty
  match org.Leadership with
  | none => result.addError "5.2" "quality_policy" "Quality policy must be established and maintained"
  | some leadership =>
    match leadership.QualityPolicy with
    | none =>
      result.addError "5.2" "quality_policy" "Quality policy must be established and maintained"
    | some policy =>
      let result := if policy.Statement = "" then
          result.addError "5.2" "policy_statement" "Quality policy must include a statement of intent"
        else result
      let result := if policy.Objectives = "" then
          result.addError "5.2" "policy_objectives"
            "Quality policy must provide a framework for setting quality objectives"
        else result
      let result := if policy.Commitment = "" then
          result.addError "5.2" "policy_commitment"
            "Quality policy must include commitment to satisfy applicable requirements"
        else result
      let result := if policy.Improvement = "" then
          result.addError "5.2" "policy_improvement"
            "Quality policy must include commitment to continual improvement"
        else result
      let result := if !policy.Communicated then
          result.addError "5.2" "policy_communication"
            "Quality policy must be communicated and understood within the organization"
        else result
      if !policy.Available then
        result.addError "5.2" "policy_availability"
          "Quality policy must be available to relevant interested parties"
      else result

/-- Loop body of the clause-5.3 role check. -/
def roleStep (r : ValidationResult) (p : Nat × OrganizationalRole) : ValidationResult :=
  let role := p.2
  let r := if role.Name = "" then
      r.addError "5.3" ("role_" ++ toString p.1 ++ "_name") "Role must have a name"
    else r
  let r := if role.Responsibilities = [] then
      r.addError "5.3" ("role_" ++ role.Name ++ "_responsibilities")
        "Role must have defined responsibilities"
    else r
  let r := if role.Authorities = [] then
      r.addError "5.3" ("role_" ++ role.Name ++ "_authorities") "Role must have defined authorities"
    else r
  if role.AssignedTo = "" then
    r.addError "5.3" ("role_" ++ role.Name ++ "_assignment") "Role must be assigned to a person"
  else r

/-- Clause 5.3: organizational roles, responsibilities and authorities. -/
def validateRolesResponsibilities (org : Organization) : ValidationResult :=
  let result := ValidationResult.empty
  match org.Leadership with
  | none =>
    result.addError "5.3" "roles_responsibilities"
      "Organizational roles, responsibilities and authorities must be assigned and communicated"
  | some leadership =>
    if leadership.Roles = [] then
      result.addError "5.3" "roles_responsibilities"
        "Organizational roles, responsibilities and authorities must be assigned and communicated"
    else
      leadership.Roles.enum.foldl roleStep result

/-- The per-record mitigation warning of the clause-6.1 checker. -/
def mitigationWarning (i : Nat) : ValidationError :=
  { Clause := "6.1", Field := "risk_" ++ toString i ++ "_mitigation",
    Message := "Risk should have mitigation actions defined", Severity := "warning" }

/-- The per-record opportunity info of the clause-6.1 checker. -/
def opportunityActionInfo (i : Nat) : ValidationError :=
  { Clause := "6.1", Field := "opportunity_" ++ toString i ++ "_actions",
    Message := "Opportunity should have actions defined for realization", Severity := "info" }

/-- Loop body of the clause-6.1 per-risk mitigation check (QMS-level risks only). -/
def riskMitigationStep (r : ValidationResult) (p : Nat × Risk) : ValidationResult :=
  if p.2.Mitigation = [] ∧ p.2.Status ≠ RiskStatusMitigated then
    r.addWarning "6.1" ("risk_" ++ toString p.1 ++ "_mitigation")
      "Risk should have mitigation actions defined"
  else r

/-- Loop body of the clause-6.1 per-opportunity action check (QMS-level only). -/
def opportunityActionStep (r : ValidationResult) (p : Nat × Opportunity) : ValidationResult :=
  if p.2.Actions = [] ∧ p.2.Status ≠ OpportunityStatusRealized then
    r.addInfo "6.1" ("opportunity_" ++ toString p.1 ++ "_actions")
      "Opportunity should have actions defined for realization"
  else r

/-- Clause 6.1: actions to address risks and opportunities. -/
def validateRisksOpportunities (org : Organization) : ValidationResult :=
  let result := ValidationResult.empty
  match org.QMS with
  | none => result.addError "6.1" "qms" "QMS must be defined to validate risks and opportunities"
  | some qms =>
    let totalRisks :=
      qms.Processes.foldl (fun n process => n + process.Risks.length) qms.Risks.length
    let totalOpportunities :=
      qms.Processes.foldl (fun n process => n + process.Opportunities.length)
        qms.Opportunities.length
    let result := if totalRisks = 0 then
        result.addWarning "6.1" "risks"
          "No risks identified - risk-based thinking should be applied to planning"
      else result
    let result := if totalOpportunities = 0 then
        result.addInfo "6.1" "opportunities" "Consider identifying opportunities for improvement"
      else result
    let result := qms.Risks.enum.foldl riskMitigationStep result
    qms.Opportunities.enum.foldl opportunityActionStep result

/-- Loop body of the clause-6.2 objective check. -/
def objectiveStep (r : ValidationResult) (p : Nat × QualityObjective) : ValidationResult :=
  let objective := p.2
  let r := if objective.Name = "" then
      r.addError "6.2" ("objective_" ++ toString p.1 ++ "_name") "Quality objective must have a name"
    else r
  let r := if !objective.Measurable then
      r.addError "6.2" ("objective_" ++ objective.Name ++ "_measurable")
        "Quality objectives must be measurable"
    else r
  let r := if objective.Targets = [] then
      r.addError "6.2" ("objective_" ++ objective.Name ++ "_targets")
        "Quality objectives must have specific targets"
    else r
  let r := if objective.Responsible = "" then
      r.addError "6.2" ("objective_" ++ objective.Name ++ "_responsible")
        "Quality objectives must have responsible parties assigned"
    else r
  if objective.Timeline.TargetDate = 0 then
    r.addError "6.2" ("objective_" ++ objective.Name ++ "_timeline")
      "Quality objectives must have target dates"
  else r

/-- Clause 6.2: quality objectives and planning to achieve them. -/
def validateQualityObjectives (org : Organization) : ValidationResult :=
  let result := ValidationResult.empty
  match org.QMS with
  | none =>
    result.addError "6.2" "quality_objectives"
      "Quality objectives must be established at relevant functions and levels"
  | some qms =>
    if qms.Objectives = [] then
      result.addError "6.2" "quality_objectives"
        "Quality objectives must be established at relevant functions and levels"
    else
      qms.Objectives.enum.foldl objectiveStep result

/-- Comprehensive validation of an organization against ISO 9001 requirements. -/
def ValidateOrganization (org : Organization) : ValidationResult :=
  let result := ValidationResult.empty
  let result := result.merge (validateContext org)
  let result := result.merge (validateInterestedParties org)
  let result := result.merge (validateQMSScope org)
  let result := result.merge (validateQMSProcesses org)
  let result := result.merge (validateLeadership org)
  let result := result.merge (validateQualityPolicy org)
  let result := result.merge (validateRolesResponsibilities org)
  let result := result.merge (validateRisksOpportunities org)
  result.merge (validateQualityObjectives org)

/-- Arithmetic body of `GetComplianceScore` (Go inlines this computation):
errors weigh 3 points, warnings 1, infos contribute `int(float64(n) * 0.5)`
which is exact halving followed by truncation toward zero, i.e. `n / 2` on `ℕ`. -/
def complianceScoreOfCounts (numErrors numWarnings numInfos : Nat) : ℚ :=
  let totalChecks := numErrors + numWarnings + numInfos
  if totalChecks = 0 then 100
  else
    let errorPoints := numErrors * 3
    let warningPoints := numWarnings * 1
    let infoPoints := numInfos / 2
    let totalPenaltyPoints := errorPoints + warningPoints + infoPoints
    let maxPossiblePoints := totalChecks * 3
    if maxPossiblePoints = 0 then 100
    else
      let score : ℚ := 100 * (1 - (totalPenaltyPoints : ℚ) / (maxPossiblePoints : ℚ))
      if score < 0 then 0 else score

/-- Compliance score (0-100) based on validation results. -/
def GetComplianceScore (org : Organization) : ℚ :=
  let result := ValidateOrganization org
  complianceScoreOfCounts result.Errors.length result.Warnings.length result.Infos.length

/-! ## Risk management (risk_management.go) -/

/-- Lookup in an association list modelling a Go `map[string]*T`. -/
def alistLookup {α : Type} (k : String) : List (String × α) → Option α
  | [] => none
  | (k2, v) :: rest => if k2 = k then some v else alistLookup k rest

/-- Go `m[k] = v`: replace the entry if the key exists, otherwise add it. -/
def alistStore {α : Type} (k : String) (v : α) : List (String × α) → List (String × α)
  | [] => [(k, v)]
  | (k2, v2) :: rest => if k2 = k then (k, v) :: rest else (k2, v2) :: alistStore k v rest

/-- Entry in the risk register. -/
structure RiskEntry where
  RiskID : String := ""
  Description : String := ""
  «Type» : String := ""
  ProcessID : String := ""
  Probability : String := ""
  Impact : String := ""
  RiskScore : Nat := 0
  Priority : String := ""
  Status : String := ""
  LastAssessed : Time := 0
  deriving DecidableEq, Repr

/-- Risk register maintained by the risk manager. -/
structure RiskRegister where
  OrganizationRisks : List RiskEntry := []
  ProcessRisks : List (String × List RiskEntry) := []
  CriticalRisks : List RiskEntry := []
  MitigationActions : List Action := []
  LastUpdated : Time := 0
  deriving DecidableEq, Repr

/-- Manager of risks and opportunities. -/
structure RiskManager where
  Risks : List (String × Risk) := []
  Opportunities : List (String × Opportunity) := []
  Register : RiskRegister := {}
  deriving DecidableEq, Repr

/-- Weight of an ordinal risk level (the Go `switch` falls through to 1 for
any string outside the five constants). -/
def getRiskScore (level : String) : Nat :=
  if level = RiskLevelVeryHigh then 4
  else if level = RiskLevelHigh then 3
  else if level = RiskLevelMedium then 2
  else if level = RiskLevelLow then 1
  else if level = RiskLevelVeryLow then 1
  else 1

/-- Priority category from the likelihood × impact score. -/
def calculatePriority (likelihood impact : String) : String :=
  let likelihoodScore := getRiskScore likelihood
  let impactScore := getRiskScore impact
  let totalScore := likelihoodScore * impactScore
  if totalScore ≥ 16 then PriorityCritical
  else if totalScore ≥ 9 then PriorityHigh
  else if totalScore ≥ 4 then PriorityMedium
  else PriorityLow

/-- Register entry built by `updateRegister` for one stored risk. -/
def riskEntryOf (id : String) (risk : Risk) (now : Time) : RiskEntry :=
  { RiskID := id
    Description := risk.Description
    «Type» := "operational"
    Probability := risk.Likelihood
    Impact := risk.Impact
    RiskScore := getRiskScore risk.Likelihood * getRiskScore risk.Impact
    Priority := risk.Priority
    Status := risk.Status
    LastAssessed := now }

/-- Descending insertion by `RiskScore`; a sort with the Go comparator
`orgRisks[i].RiskScore > orgRisks[j].RiskScore` (`sort.Slice` leaves the
order of equal-score entries unspecified, so any such sort is a faithful
model). -/
def insertEntryDesc (e : RiskEntry) : List RiskEntry → List RiskEntry
  | [] => [e]
  | x :: xs => if x.RiskScore < e.RiskScore then e :: x :: xs else x :: insertEntryDesc e xs

/-- Sort register entries by risk score, descending. -/
def sortEntriesDesc (l : List RiskEntry) : List RiskEntry := l.foldr insertEntryDesc []

/-- Rebuild the register: entries for all stored risks, sorted by score
descending; `CriticalRisks` is the top 10 (or all if fewer). -/
def updateRegister (rm : RiskManager) (now : Time) : RiskManager :=
  let orgRisks := sortEntriesDesc (rm.Risks.map (fun p => riskEntryOf p.1 p.2 now))
  let criticalRisks := if orgRisks.length > 10 then orgRisks.take 10 else orgRisks
  { rm with Register :=
      { rm.Register with
        LastUpdated := now
        OrganizationRisks := orgRisks
        CriticalRisks := criticalRisks } }

/-- Identify a new risk. -/
def IdentifyRisk (rm : RiskManager) (now : Time) (risk : Risk) :
    RiskManager × Option String :=
  if risk.ID = "" then (rm, some "risk must have an ID")
  else if risk.Description = "" then (rm, some "risk must have a description")
  else
    let risk := { risk with Created := now, Status := RiskStatusIdentified }
    (updateRegister { rm with Risks := alistStore risk.ID risk rm.Risks } now, none)

/-- Perform risk assessment. -/
def AssessRisk (rm : RiskManager) (now : Time) (riskID likelihood impact : String) :
    RiskManager × Option String :=
  match alistLookup riskID rm.Risks with
  | none => (rm, some ("risk with ID " ++ riskID ++ " not found"))
  | some risk =>
    let risk := { risk with
      Likelihood := likelihood
      Impact := impact
      Priority := calculatePriority likelihood impact
      Status := RiskStatusAssessed }
    (updateRegister { rm with Risks := alistStore riskID risk rm.Risks } now, none)

/-- Add mitigation actions to a risk. -/
def MitigateRisk (rm : RiskManager) (now : Time) (riskID : String) (actions : List Action) :
    RiskManager × Option String :=
  match alistLookup riskID rm.Risks with
  | none => (rm, some ("risk with ID " ++ riskID ++ " not found"))
  | some risk =>
    let risk := { risk with
      Mitigation := risk.Mitigation ++ actions
      Status := RiskStatusMitigated }
    (updateRegister { rm with Risks := alistStore riskID risk rm.Risks } now, none)

/-- Risks with critical impact: the Go filter is
`risk.Impact == RiskLevelVeryHigh && risk.Likelihood >= RiskLevelHigh`,
where `>=` is Go's lexicographic comparison of strings. -/
def GetCriticalRisks (rm : RiskManager) : List Risk :=
  (rm.Risks.map Prod.snd).filter
    (fun risk => risk.Impact == RiskLevelVeryHigh && goStrGe risk.Likelihood RiskLevelHigh)

/-! ## Quality objectives (risk_management.go) -/

/-- Progress snapshot on a quality objective (`Progress` is a float64 percentage). -/
structure ObjectiveProgress where
  ObjectiveID : String := ""
  Date : Time := 0
  Progress : ℚ := 0
  Status : String := ""
  Comments : String := ""
  deriving DecidableEq, Repr

/-- Recorded achievement of a quality objective. -/
structure ObjectiveAchievement where
  ObjectiveID : String := ""
  AchievedDate : Time := 0
  Evidence : String := ""
  Celebrated : Bool := false
  deriving DecidableEq, Repr

/-- Tracker of progress against quality objectives. -/
structure ObjectivesTracker where
  ProgressReports : List ObjectiveProgress := []
  Achievements : List ObjectiveAchievement := []
  deriving DecidableEq, Repr

/-- Manager of quality objectives. -/
structure QualityObjectivesManager where
  Objectives : List (String × QualityObjective) := []
  Tracker : ObjectivesTracker := {}
  deriving DecidableEq, Repr

/-- Create a new quality objective. -/
def CreateObjective (qom : QualityObjectivesManager) (now : Time)
    (objective : QualityObjective) : QualityObjectivesManager × Option String :=
  if objective.ID = "" then (qom, some "objective must have an ID")
  else if objective.Name = "" then (qom, some "objective must have a name")
  else if !objective.Measurable then (qom, some "quality objectives must be measurable")
  else if objective.Targets = [] then (qom, some "objective must have targets")
  else if objective.Responsible = "" then (qom, some "objective must have a responsible party")
  else
    let objective := { objective with Created := now, Status := ObjectiveStatusPlanned }
    ({ qom with Objectives := alistStore objective.ID objective qom.Objectives }, none)

/-- Update progress on a quality objective; the status update is driven by
the reported percentage (`>= 100` → achieved plus an achievement record,
`> 0` → in progress, otherwise the status is left as it was). -/
def UpdateObjectiveProgress (qom : QualityObjectivesManager) (objectiveID : String)
    (progress : ObjectiveProgress) : QualityObjectivesManager × Option String :=
  match alistLookup objectiveID qom.Objectives with
  | none => (qom, some ("objective with ID " ++ objectiveID ++ " not found"))
  | some objective =>
    let progress := { progress with ObjectiveID := objectiveID }
    let tracker := { qom.Tracker with
      ProgressReports := qom.Tracker.ProgressReports ++ [progress] }
    if progress.Progress ≥ 100 then
      let objective := { objective with Status := ObjectiveStatusAchieved }
      let achievement : ObjectiveAchievement :=
        { ObjectiveID := objectiveID, AchievedDate := progress.Date,
          Evidence := progress.Comments }
      ({ Objectives := alistStore objectiveID objective qom.Objectives
         Tracker := { tracker with Achievements := tracker.Achievements ++ [achievement] } },
       none)
    else if progress.Progress > 0 then
      ({ Objectives :=
           alistStore objectiveID { objective with Status := ObjectiveStatusInProgress }
             qom.Objectives
         Tracker := tracker }, none)
    else
      ({ qom with Tracker := tracker }, none)

/-! ## Audits (audit.go) -/

structure AuditScope where
  Description : String := ""
  Processes : List String := []
  Locations : List String := []
  Departments : List String := []
  Clauses : List String := []
  Exclusions : List String := []
  Objectives : List String := []
  deriving DecidableEq, Repr

structure AuditParticipant where
  ID : String := ""
  Name : String := ""
  Role : String := ""
  Competence : List String := []
  deriving DecidableEq, Repr

structure AuditFinding where
  ID : String := ""
  Clause : String := ""
  Description : String := ""
  Evidence : String := ""
  Severity : String := ""
  Category : String := ""
  Responsible : String := ""
  DueDate : Time := 0
  Status : String := ""
  Created : Time := 0
  deriving DecidableEq, Repr

/-- Internal audit (clause 9.2). -/
structure Audit where
  ID : String := ""
  Title : String := ""
  «Type» : String := ""
  Scope : AuditScope := {}
  PlannedStartDate : Time := 0
  PlannedEndDate : Time := 0
  ActualStartDate : Option Time := none
  Auditors : List AuditParticipant := []
  Auditees : List AuditParticipant := []
  Findings : List AuditFinding := []
  Status : String := ""
  Created : Time := 0
  Modified : Time := 0
  deriving DecidableEq, Repr

/-- Manager of audits. -/
structure AuditManager where
  Audits : List (String × Audit) := []
  deriving DecidableEq, Repr

/-- Create a new audit. -/
def CreateAudit (am : AuditManager) (now : Time) (audit : Audit) :
    AuditManager × Option String :=
  if audit.ID = "" then (am, some "audit must have an ID")
  else if audit.Title = "" then (am, some "audit must have a title")
  else if audit.Scope.Description = "" then (am, some "audit must have a defined scope")
  else
    let audit := { audit with Created := now, Modified := now, Status := AuditStatusPlanned }
    ({ am with Audits := alistStore audit.ID audit am.Audits }, none)

/-- Start an audit: fails unless the audit exists and is in planned status. -/
def StartAudit (am : AuditManager) (auditID : String) (startDate now : Time) :
    AuditManager × Option String :=
  match alistLookup auditID am.Audits with
  | none => (am, some ("audit with ID " ++ auditID ++ " not found"))
  | some audit =>
    if audit.Status ≠ AuditStatusPlanned then (am, some "audit is not in planned status")
    else
      let audit := { audit with
        ActualStartDate := some startDate
        Status := AuditStatusInProgress
        Modified := now }
      ({ am with Audits := alistStore auditID audit am.Audits }, none)

/-! ## Spec-side definition used to compare claim C3 against the code -/

/-- Standard rounding to the nearest integer, halves away from zero on the
nonnegative arguments used here: `round q = ⌊q + 1/2⌋`. -/
def specRound (q : ℚ) : ℤ := ⌊q + 1/2⌋

/-- Modelled from the spec (claim C3), for comparison with the code:
`penalty = 3·E + 1·W + round(0.5·I)` with a single shared rounding over the
info count, `maxPossible = 3·(E+W+I)`, `score = 100·(1 − penalty/maxPossible)`
floored at 0. -/
def specClaimedScore (numErrors numWarnings numInfos : Nat) : ℚ :=
  let penalty : ℚ :=
    3 * numErrors + 1 * numWarnings + (specRound ((1 : ℚ) / 2 * numInfos) : ℚ)
  let maxPossible : ℚ := 3 * (numErrors + numWarnings + numInfos)
  max 0 (100 * (1 - penalty / maxPossible))

/-! ## Register invariant stated by claim C7 -/

/-- The register's critical-risks view is the top-10 slice of the full
sorted register: `min 10 n` entries, sorted by score descending. -/
def RegisterTopTen (rm : RiskManager) : Prop :=
  rm.Register.CriticalRisks = rm.Register.OrganizationRisks.take 10
  ∧ rm.Register.CriticalRisks.length = min 10 rm.Risks.length
  ∧ rm.Register.CriticalRisks.Pairwise (fun a b => b.RiskScore ≤ a.RiskScore)
  ∧ rm.Register.OrganizationRisks.Pairwise (fun a b => b.RiskScore ≤ a.RiskScore)

/-! ## Concrete inputs used by counterexamples and witnesses -/

/-- Risk with very_high impact but very_low likelihood (claim C1). -/
def riskC1 : Risk :=
  { ID := "R1", Description := "supplier insolvency",
    Likelihood := RiskLevelVeryLow, Impact := RiskLevelVeryHigh }

/-- Risk manager holding only `riskC1` (claim C1). -/
def rmC1 : RiskManager := { Risks := [("R1", riskC1)] }

/-- Organization whose validation yields zero errors, zero warnings and
exactly one info finding (the clause-4.2 regulator hint) — claim C2. -/
def orgC2 : Organization :=
  { ID := "ORG-1", Name := "Example Org"
    Context := some
      { ExternalIssues := [{ Description := "Market competition", «Type» := "external" }]
        InternalIssues := [{ Description := "Staff turnover", «Type» := "internal" }]
        InterestedParties :=
          [{ ID := "P1", Name := "Customer A", «Type» := "customer", Requirements := ["Quality"] },
           { ID := "P2", Name := "Supplier B", «Type» := "supplier", Requirements := ["Terms"] }] }
    Leadership := some
      { TopManagement := [{ ID := "CEO", Name := "Casey", Role := "CEO" }]
        QualityPolicy := some
          { Statement := "We deliver quality", Objectives := "Set yearly",
            Commitment := "Meet requirements", Improvement := "Improve continually",
            Communicated := true, Available := true }
        Roles := [{ ID := "RL1", Name := "QM", Responsibilities := ["Run QMS"],
                    Authorities := ["Approve"], AssignedTo := "Casey" }]
        Commitment := requiredCommitments }
    QMS := some
      { Scope := some { Description := "All products", Products := ["Widget"] }
        Processes :=
          [{ Name := "Production"
             Inputs := [{ Name := "raw material" }]
             Outputs := [{ Name := "widget" }]
             Responsibilities := ["Plant manager"]
             Criteria := [{ Name := "Yield", Metric := "yield", Target := "99%" }]
             Risks := [{ ID := "PR1", Description := "machine failure" }]
             Opportunities := [{ ID := "PO1", Description := "automation" }] }]
        Objectives :=
          [{ ID := "O1", Name := "Reduce defects", Measurable := true,
             Targets := [{ Metric := "defect_rate", Value := "1", Unit := "%" }],
             Responsible := "QM", Timeline := { TargetDate := 10 } }] } }

/-- Organization whose validation yields zero errors, zero warnings and
exactly three info findings — claim C3. -/
def orgC3 : Organization :=
  { ID := "ORG-2", Name := "Example Org 2"
    Context := some
      { ExternalIssues := [{ Description := "Market competition", «Type» := "external" }]
        InternalIssues := [{ Description := "Staff turnover", «Type» := "internal" }]
        InterestedParties :=
          [{ ID := "P1", Name := "Customer A", «Type» := "customer", Requirements := ["Quality"] },
           { ID := "P2", Name := "Supplier B", «Type» := "supplier", Requirements := ["Terms"] }] }
    Leadership := some
      { TopManagement := [{ ID := "CEO", Name := "Casey", Role := "CEO" }]
        QualityPolicy := some
          { Statement := "We deliver quality", Objectives := "Set yearly",
            Commitment := "Meet requirements", Improvement := "Improve continually",
            Communicated := true, Available := true }
        Roles := [{ ID := "RL1", Name := "QM", Responsibilities := ["Run QMS"],
                    Authorities := ["Approve"], AssignedTo := "Casey" }]
        Commitment := requiredCommitments }
    QMS := some
      { Scope := some { Description := "All products", Products := ["Widget"] }
        Processes :=
          [{ Name := "Production"
             Inputs := [{ Name := "raw material" }]
             Outputs := [{ Name := "widget" }]
             Responsibilities := ["Plant manager"]
             Criteria := [{ Name := "Yield", Metric := "yield", Target := "99%" }] }]
        Risks := [{ ID := "R1", Description := "supply delay",
                    Mitigation := [{ ID := "A1", Description := "dual sourcing" }] }]
        Objectives :=
          [{ ID := "O1", Name := "Reduce defects", Measurable := true,
             Targets := [{ Metric := "defect_rate", Value := "1", Unit := "%" }],
             Responsible := "QM", Timeline := { TargetDate := 10 } }] } }

/-- Quality objective registered for the claim-C4 scenario. -/
def objC4 : QualityObjective :=
  { ID := "OBJ-1", Name := "Cut lead time", Measurable := true,
    Targets := [{ Metric := "days", Value := "5", Unit := "days" }], Responsible := "QM" }

/-- The stored form of `objC4` after `CreateObjective` at tick 0. -/
def objC4stored : QualityObjective :=
  { objC4 with Created := 0, Status := ObjectiveStatusPlanned }

/-- Objectives manager right after creating `objC4` (status planned). -/
def qomC4 : QualityObjectivesManager := (CreateObjective {} 0 objC4).1

/-- After a progress report of 100 (status achieved). -/
def qomC4a : QualityObjectivesManager :=
  (UpdateObjectiveProgress qomC4 "OBJ-1" { Progress := 100 }).1

/-- After a further progress report of 50. -/
def qomC4b : QualityObjectivesManager :=
  (UpdateObjectiveProgress qomC4a "OBJ-1" { Progress := 50 }).1

/-- Leadership block with eleven of the twelve required commitments
(customer_focus missing) — claim C6 witness. -/
def ldC6 : Leadership :=
  { TopManagement := [{ Name := "CEO" }]
    Commitment :=
      [CommitmentQMSEffectiveness, CommitmentQualityPolicy, CommitmentQMSIntegration,
       CommitmentProcessApproach, CommitmentRiskThinking, CommitmentResources,
       CommitmentImportanceQMS, CommitmentConformity, CommitmentQMSResults,
       CommitmentEngagement, CommitmentImprovement] }

/-- Organization wrapping `ldC6` — claim C6 witness. -/
def orgC6 : Organization := { Leadership := some ldC6 }

/-- Risk manager with one identified risk, for a successful assessment —
claim C7 witness. -/
def rmC7 : RiskManager := { Risks := [("R1", { ID := "R1", Description := "late delivery" })] }

/-- Audit already in progress — claim C8 witness. -/
def auditC8 : Audit :=
  { ID := "A1", Title := "Internal audit", Scope := { Description := "QMS" },
    Status := AuditStatusInProgress }

/-- Audit manager holding `auditC8` — claim C8 witness. -/
def amC8 : AuditManager := { Audits := [("A1", auditC8)] }

/-- QMS with no risks anywhere (flattened total 0) but one opportunity —
claim C9 witness. -/
def qmsC9 : QualityManagementSystem :=
  { Opportunities := [{ ID := "O1", Description := "new market" }]
    Processes := [{ Name := "P" }] }

/-- Organization wrapping `qmsC9` — claim C9 witness. -/
def orgC9 : Organization := { QMS := some qmsC9 }

/-- QMS with one unmitigated QMS-level risk, one actionless QMS-level
opportunity, and a process also holding an unmitigated risk — claim C10
witness. -/
def qmsC10 : QualityManagementSystem :=
  { Risks := [{ ID := "R1", Description := "data loss" }]
    Opportunities := [{ ID := "O1", Description := "new market" }]
    Processes := [{ Name := "P", Risks := [{ ID := "PR1", Description := "downtime" }] }] }

/-- Organization wrapping `qmsC10` — claim C10 witness. -/
def orgC10 : Organization := { QMS := some qmsC10 }

/-! ## Helper lemmas: ValidationResult components -/

theorem ValidationResult.empty_Errors : ValidationResult.empty.Errors = [] := rfl

theorem ValidationResult.empty_Warnings : ValidationResult.empty.Warnings = [] := rfl

theorem ValidationResult.empty_Infos : ValidationResult.empty.Infos = [] := rfl

theorem ValidationResult.addError_Errors (r : ValidationResult) (c f m : String) :
    (r.addError c f m).Errors = r.Errors ++ [⟨c, f, m, "error"⟩] := rfl

theorem ValidationResult.addError_Warnings (r : ValidationResult) (c f m : String) :
    (r.addError c f m).Warnings = r.Warnings := rfl

theorem ValidationResult.addError_Infos (r : ValidationResult) (c f m : String) :
    (r.addError c f m).Infos = r.Infos := rfl

theorem ValidationResult.addWarning_Errors (r : ValidationResult) (c f m : String) :
    (r.addWarning c f m).Errors = r.Errors := rfl

theorem ValidationResult.addWarning_Warnings (r : ValidationResult) (c f m : String) :
    (r.addWarning c f m).Warnings = r.Warnings ++ [⟨c, f, m, "warning"⟩] := rfl

theorem ValidationResult.addWarning_Infos (r : ValidationResult) (c f m : String) :
    (r.addWarning c f m).Infos = r.Infos := rfl

theorem ValidationResult.addInfo_Errors (r : ValidationResult) (c f m : String) :
    (r.addInfo c f m).Errors = r.Errors := rfl

theorem ValidationResult.addInfo_Warnings (r : ValidationResult) (c f m : String) :
    (r.addInfo c f m).Warnings = r.Warnings := rfl

theorem ValidationResult.addInfo_Infos (r : ValidationResult) (c f m : String) :
    (r.addInfo c f m).Infos = r.Infos ++ [⟨c, f, m, "info"⟩] := rfl

/-! ## Helper lemmas: clause-5.1 commitment fold -/

theorem commitmentStep_fold (ld : Leadership) (req : List String) (r : ValidationResult) :
    (req.foldl (commitmentStep ld) r).Errors
      = r.Errors
        ++ (req.filter (fun t => !(ld.Commitment.contains t))).map missingCommitmentError := by
  induction req generalizing r with
  | nil => simp
  | cons t ts ih =>
    rw [List.foldl_cons, List.filter_cons]
    cases hc : ld.Commitment.contains t with
    | true =>
      have hm : t ∈ ld.Commitment := by simpa using hc
      simp [commitmentStep, hc, hm, ih]
    | false =>
      simp only [commitmentStep, hc, Bool.false_eq_true, if_false, Bool.not_false, if_true, ih,
        ValidationResult.addError_Errors, List.map_cons, List.append_assoc,
        List.singleton_append]
      rfl

/-! ## Helper lemmas: clause-6.1 folds -/

theorem riskFold_Warnings (l : List (Nat × Risk)) (r : ValidationResult) :
    (l.foldl riskMitigationStep r).Warnings
      = r.Warnings
        ++ (l.filter
              (fun p => decide (p.2.Mitigation = [] ∧ p.2.Status ≠ RiskStatusMitigated))).map
            (fun p => mitigationWarning p.1) := by
  induction l generalizing r with
  | nil => simp
  | cons x xs ih =>
    rw [List.foldl_cons, List.filter_cons]
    by_cases h : x.2.Mitigation = [] ∧ x.2.Status ≠ RiskStatusMitigated
    · simp only [riskMitigationStep, if_pos h, decide_eq_true h, if_true, ih,
        ValidationResult.addWarning_Warnings, List.map_cons, List.append_assoc,
        List.singleton_append]
      rfl
    · simp only [riskMitigationStep, if_neg h, decide_eq_false h, Bool.false_eq_true, if_false, ih]

theorem riskFold_Errors (l : List (Nat × Risk)) (r : ValidationResult) :
    (l.foldl riskMitigationStep r).Errors = r.Errors := by
  induction l generalizing r with
  | nil => rfl
  | cons x xs ih =>
    rw [List.foldl_cons]
    by_cases h : x.2.Mitigation = [] ∧ x.2.Status ≠ RiskStatusMitigated
    · simp [riskMitigationStep, if_pos h, ih, ValidationResult.addWarning_Errors]
    · simp [riskMitigationStep, if_neg h, ih]

theorem riskFold_Infos (l : List (Nat × Risk)) (r : ValidationResult) :
    (l.foldl riskMitigationStep r).Infos = r.Infos := by
  induction l generalizing r with
  | nil => rfl
  | cons x xs ih =>
    rw [List.foldl_cons]
    by_cases h : x.2.Mitigation = [] ∧ x.2.Status ≠ RiskStatusMitigated
    · simp [riskMitigationStep, if_pos h, ih, ValidationResult.addWarning_Infos]
    · simp [riskMitigationStep, if_neg h, ih]

theorem oppFold_Infos (l : List (Nat × Opportunity)) (r : ValidationResult) :
    (l.foldl opportunityActionStep r).Infos
      = r.Infos
        ++ (l.filter
              (fun p => decide (p.2.Actions = [] ∧ p.2.Status ≠ OpportunityStatusRealized))).map
            (fun p => opportunityActionInfo p.1) := by
  induction l generalizing r with
  | nil => simp
  | cons x xs ih =>
    rw [List.foldl_cons, List.filter_cons]
    by_cases h : x.2.Actions = [] ∧ x.2.Status ≠ OpportunityStatusRealized
    · simp only [opportunityActionStep, if_pos h, decide_eq_true h, if_true, ih,
        ValidationResult.addInfo_Infos, List.map_cons, List.append_assoc,
        List.singleton_append]
      rfl
    · simp only [opportunityActionStep, if_neg h, decide_eq_false h, Bool.false_eq_true,
        if_false, ih]

theorem oppFold_Warnings (l : List (Nat × Opportunity)) (r : ValidationResult) :
    (l.foldl opportunityActionStep r).Warnings = r.Warnings := by
  induction l generalizing r with
  | nil => rfl
  | cons x xs ih =>
    rw [List.foldl_cons]
    by_cases h : x.2.Actions = [] ∧ x.2.Status ≠ OpportunityStatusRealized
    · simp [opportunityActionStep, if_pos h, ih, ValidationResult.addInfo_Warnings]
    · simp [opportunityActionStep, if_neg h, ih]

theorem foldl_add_sum {α : Type} (g : α → Nat) (l : List α) (a : Nat) :
    l.foldl (fun n x => n + g x) a = a + (l.map g).sum := by
  induction l generalizing a with
  | nil => simp
  | cons x xs ih => simp [ih, Nat.add_assoc]

theorem riskField_ne (i : Nat) : ("risk_" ++ toString i ++ "_mitigation") ≠ "risks" := by
  intro h
  have hl := congrArg String.length h
  rw [String.length_append, String.length_append] at hl
  have h1 : ("risk_" : String).length = 5 := rfl
  have h2 : ("_mitigation" : String).length = 11 := rfl
  have h3 : ("risks" : String).length = 5 := rfl
  omega

theorem oppField_ne (i : Nat) : ("opportunity_" ++ toString i ++ "_actions") ≠ "opportunities" := by
  intro h
  have hl := congrArg String.length h
  rw [String.length_append, String.length_append] at hl
  have h1 : ("opportunity_" : String).length = 12 := rfl
  have h2 : ("_actions" : String).length = 8 := rfl
  have h3 : ("opportunities" : String).length = 13 := rfl
  omega

theorem countP_mitigationWarning_risks (l : List (Nat × Risk)) :
    ((l.map (fun p => mitigationWarning p.1)).countP (fun e => e.Field == "risks")) = 0 := by
  rw [List.countP_eq_zero]
  intro e he
  obtain ⟨p, _, rfl⟩ := List.mem_map.mp he
  simpa [mitigationWarning] using riskField_ne p.1

theorem countP_opportunityActionInfo_opps (l : List (Nat × Opportunity)) :
    ((l.map (fun p => opportunityActionInfo p.1)).countP
        (fun e => e.Field == "opportunities")) = 0 := by
  rw [List.countP_eq_zero]
  intro e he
  obtain ⟨p, _, rfl⟩ := List.mem_map.mp he
  simpa [opportunityActionInfo] using oppField_ne p.1

/-! ## Helper lemmas: association lists -/

theorem alistLookup_store_self {α : Type} (k : String) (v : α) (l : List (String × α)) :
    alistLookup k (alistStore k v l) = some v := by
  induction l with
  | nil => simp [alistStore, alistLookup]
  | cons p rest ih =>
    by_cases h : p.1 = k
    · simp [alistStore, alistLookup, h]
    · simp [alistStore, alistLookup, h, ih]

/-! ## Helper lemmas: descending insertion sort on register entries -/

theorem mem_insertEntryDesc {e x : RiskEntry} {l : List RiskEntry}
    (h : x ∈ insertEntryDesc e l) : x = e ∨ x ∈ l := by
  induction l with
  | nil => simpa [insertEntryDesc] using h
  | cons y ys ih =>
    rw [insertEntryDesc] at h
    by_cases hc : y.RiskScore < e.RiskScore
    · rw [if_pos hc] at h
      rcases List.mem_cons.mp h with h2 | h2
      · exact Or.inl h2
      · exact Or.inr h2
    · rw [if_neg hc] at h
      rcases List.mem_cons.mp h with h2 | h2
      · exact Or.inr (by simp [h2])
      · rcases ih h2 with h3 | h3
        · exact Or.inl h3
        · exact Or.inr (by simp [h3])

theorem length_insertEntryDesc (e : RiskEntry) (l : List RiskEntry) :
    (insertEntryDesc e l).length = l.length + 1 := by
  induction l with
  | nil => rfl
  | cons y ys ih =>
    rw [insertEntryDesc]
    by_cases hc : y.RiskScore < e.RiskScore
    · simp [hc]
    · simp [hc, ih]

theorem pairwise_insertEntryDesc (e : RiskEntry) (l : List RiskEntry)
    (h : l.Pairwise (fun a b => b.RiskScore ≤ a.RiskScore)) :
    (insertEntryDesc e l).Pairwise (fun a b => b.RiskScore ≤ a.RiskScore) := by
  induction l with
  | nil => simp [insertEntryDesc]
  | cons y ys ih =>
    rw [List.pairwise_cons] at h
    obtain ⟨hy, hys⟩ := h
    rw [insertEntryDesc]
    by_cases hc : y.RiskScore < e.RiskScore
    · rw [if_pos hc, List.pairwise_cons]
      refine ⟨?_, ?_⟩
      · intro z hz
        rcases List.mem_cons.mp hz with h2 | h2
        · rw [h2]
          exact le_of_lt hc
        · exact le_trans (hy z h2) (le_of_lt hc)
      · exact List.pairwise_cons.mpr ⟨hy, hys⟩
    · rw [if_neg hc, List.pairwise_cons]
      refine ⟨?_, ih hys⟩
      intro z hz
      rcases mem_insertEntryDesc hz with h2 | h2
      · rw [h2]
        exact le_of_not_lt hc
      · exact hy z h2

theorem length_sortEntriesDesc (l : List RiskEntry) :
    (sortEntriesDesc l).length = l.length := by
  unfold sortEntriesDesc
  induction l with
  | nil => rfl
  | cons y ys ih => simp [List.foldr_cons, length_insertEntryDesc, ih]

theorem pairwise_sortEntriesDesc (l : List RiskEntry) :
    (sortEntriesDesc l).Pairwise (fun a b => b.RiskScore ≤ a.RiskScore) := by
  unfold sortEntriesDesc
  induction l with
  | nil => simp
  | cons y ys ih => exact pairwise_insertEntryDesc y _ ih

/-! ## Helper lemmas: compliance score arithmetic -/

theorem complianceScore_nonneg (E W I : Nat) : 0 ≤ complianceScoreOfCounts E W I := by
  simp only [complianceScoreOfCounts]
  split_ifs with h1 h2 h3
  · norm_num
  · norm_num
  · norm_num
  · exact le_of_not_lt h3

theorem complianceScore_le_100 (E W I : Nat) : complianceScoreOfCounts E W I ≤ 100 := by
  simp only [complianceScoreOfCounts]
  split_ifs with h1 h2 h3
  · norm_num
  · norm_num
  · norm_num
  · have hp : (0 : ℚ) ≤ ((E * 3 + W * 1 + I / 2 : Nat) : ℚ) := by positivity
    have hm : (0 : ℚ) ≤ (((E + W + I) * 3 : Nat) : ℚ) := by positivity
    have hdiv : (0 : ℚ) ≤ ((E * 3 + W * 1 + I / 2 : Nat) : ℚ) / (((E + W + I) * 3 : Nat) : ℚ) :=
      div_nonneg hp hm
    nlinarith

theorem complianceScore_eq_100_iff (E W I : Nat) :
    complianceScoreOfCounts E W I = 100 ↔ E = 0 ∧ W = 0 ∧ I ≤ 1 := by
  simp only [complianceScoreOfCounts]
  split_ifs with h1 h2 h3
  · constructor
    · intro _
      omega
    · intro _
      rfl
  · omega
  · -- the clamp branch is unreachable: the penalty never exceeds the maximum
    exfalso
    have hle : E * 3 + W * 1 + I / 2 ≤ (E + W + I) * 3 := by omega
    have hmpos : 0 < (E + W + I) * 3 := by omega
    have hcast : ((E * 3 + W * 1 + I / 2 : Nat) : ℚ) ≤ (((E + W + I) * 3 : Nat) : ℚ) := by
      exact_mod_cast hle
    have hmq : (0 : ℚ) < (((E + W + I) * 3 : Nat) : ℚ) := by exact_mod_cast hmpos
    have hdiv : ((E * 3 + W * 1 + I / 2 : Nat) : ℚ) / (((E + W + I) * 3 : Nat) : ℚ) ≤ 1 :=
      (div_le_one hmq).mpr hcast
    nlinarith
  · have hmq : (((E + W + I) * 3 : Nat) : ℚ) ≠ 0 := by
      rw [Nat.cast_ne_zero]
      exact h2
    constructor
    · intro heq
      have hfrac :
          ((E * 3 + W * 1 + I / 2 : Nat) : ℚ) / (((E + W + I) * 3 : Nat) : ℚ) = 0 := by
        nlinarith
      have hzero : ((E * 3 + W * 1 + I / 2 : Nat) : ℚ) = 0 := by
        rcases div_eq_zero_iff.mp hfrac with h | h
        · exact h
        · exact absurd h hmq
      have : E * 3 + W * 1 + I / 2 = 0 := by exact_mod_cast hzero
      omega
    · intro ⟨hE, hW, hI⟩
      have hzero : E * 3 + W * 1 + I / 2 = 0 := by omega
      rw [hzero]
      norm_num

theorem complianceScore_closed_form (E W I : Nat) (h : E + W + I ≠ 0) :
    complianceScoreOfCounts E W I
      = max 0 (100 * (1 - ((3 * E + 1 * W + I / 2 : Nat) : ℚ)
          / ((3 * (E + W + I) : Nat) : ℚ))) := by
  have harr1 : E * 3 + W * 1 + I / 2 = 3 * E + 1 * W + I / 2 := by ring
  have harr2 : (E + W + I) * 3 = 3 * (E + W + I) := by ring
  simp only [complianceScoreOfCounts]
  split_ifs with h1 h2 h3
  · exact absurd h1 h
  · omega
  · rw [harr1, harr2] at h3
    exact (max_eq_left (le_of_lt h3)).symm
  · rw [harr1, harr2] at h3
    rw [harr1, harr2]
    exact (max_eq_right (le_of_not_lt h3)).symm

/-! ## Claim theorems -/

/-- C1 (counterexample): the claim says a risk with impact very_high but
likelihood very_low is not returned by `GetCriticalRisks`; the code returns
it, because Go's `risk.Likelihood >= RiskLevelHigh` compares the strings
lexicographically and "very_low" ≥ "high" holds. -/
theorem C1_counterexample :
    riskC1 ∈ GetCriticalRisks rmC1
    ∧ riskC1.Impact = RiskLevelVeryHigh
    ∧ riskC1.Likelihood = RiskLevelVeryLow := by
  decide

/-- C1 (amended): on states whose stored likelihoods are drawn from the
five-level scale, `GetCriticalRisks` returns exactly the risks with impact
very_high — the likelihood comparison `>= "high"` is lexicographic on
strings and holds for all five level strings, so it filters nothing. -/
theorem C1_critical_by_impact_only (rm : RiskManager)
    (hlevels : ∀ p ∈ rm.Risks, (Prod.snd p).Likelihood ∈ riskLevels) (r : Risk) :
    r ∈ GetCriticalRisks rm
      ↔ r ∈ rm.Risks.map Prod.snd ∧ r.Impact = RiskLevelVeryHigh := by
  unfold GetCriticalRisks
  rw [List.mem_filter]
  constructor
  · rintro ⟨hmem, hcond⟩
    rw [Bool.and_eq_true, beq_iff_eq] at hcond
    exact ⟨hmem, hcond.1⟩
  · rintro ⟨hmem, himp⟩
    refine ⟨hmem, ?_⟩
    rw [Bool.and_eq_true, beq_iff_eq]
    refine ⟨himp, ?_⟩
    have hl : r.Likelihood ∈ riskLevels := by
      obtain ⟨p, hp, hpe⟩ := List.mem_map.mp hmem
      rw [← hpe]
      exact hlevels p hp
    simp only [riskLevels, List.mem_cons, List.not_mem_nil, or_false] at hl
    rcases hl with h1 | h1 | h1 | h1 | h1 <;> rw [h1] <;> decide

/-- C1 (witness): the amended theorem applied to the concrete one-risk manager. -/
theorem C1_witness :
    riskC1 ∈ GetCriticalRisks rmC1
      ↔ riskC1 ∈ rmC1.Risks.map Prod.snd ∧ riskC1.Impact = RiskLevelVeryHigh :=
  C1_critical_by_impact_only rmC1 (by decide) riskC1

/-- C4 (counterexample): an objective whose status is achieved regresses to
in_progress when a later progress report strictly between 0 and 100 arrives,
contradicting the claim that achieved never automatically regresses. -/
theorem C4_counterexample :
    (alistLookup "OBJ-1" qomC4a.Objectives).map QualityObjective.Status
        = some ObjectiveStatusAchieved
    ∧ (UpdateObjectiveProgress qomC4a "OBJ-1" { Progress := 50 }).2 = none
    ∧ (alistLookup "OBJ-1" qomC4b.Objectives).map QualityObjective.Status
        = some ObjectiveStatusInProgress
    ∧ ObjectiveStatusInProgress ≠ ObjectiveStatusAchieved := by
  refine ⟨by decide, by decide, by decide, by decide⟩

/-- C4 (amended): after each `UpdateObjectiveProgress` call on a registered
objective the status is: ≥ 100 → achieved (over-100 values accepted, not an
error); strictly between 0 and 100 → in_progress, even when the current
status is achieved (so achieved can regress); exactly 0 → the previous
status is kept unchanged (not reset to planned). -/
theorem C4_progress_status (qom : QualityObjectivesManager) (objectiveID : String)
    (progress : ObjectiveProgress) (objective : QualityObjective)
    (h : alistLookup objectiveID qom.Objectives = some objective) :
    (UpdateObjectiveProgress qom objectiveID progress).2 = none
    ∧ alistLookup objectiveID (UpdateObjectiveProgress qom objectiveID progress).1.Objectives
        = some { objective with
            Status :=
              if progress.Progress ≥ 100 then ObjectiveStatusAchieved
              else if progress.Progress > 0 then ObjectiveStatusInProgress
              else objective.Status } := by
  simp only [UpdateObjectiveProgress, h]
  by_cases h100 : progress.Progress ≥ 100
  · simp [h100, alistLookup_store_self]
  · by_cases hpos : progress.Progress > 0
    · simp [h100, hpos, alistLookup_store_self]
    · simp [h100, hpos, h]

/-- C4 (witness): the amended theorem at a concrete manager and a report of 50. -/
theorem C4_witness :
    (UpdateObjectiveProgress qomC4 "OBJ-1" { Progress := 50 }).2 = none
    ∧ alistLookup "OBJ-1"
        (UpdateObjectiveProgress qomC4 "OBJ-1" { Progress := 50 }).1.Objectives
        = some { objC4stored with
            Status :=
              if ({ Progress := 50 } : ObjectiveProgress).Progress ≥ 100 then
                ObjectiveStatusAchieved
              else if ({ Progress := 50 } : ObjectiveProgress).Progress > 0 then
                ObjectiveStatusInProgress
              else objC4stored.Status } :=
  C4_progress_status qomC4 "OBJ-1" { Progress := 50 } objC4stored (by decide)

/-- C5: over the five-level scale, the weights are 1,1,2,3,4 (very_low and
low share weight 1, so rows very_low and low coincide), and the priority is
the pure function of the product score given by the thresholds: 16 →
critical, {9,12} → high, {4,6,8} → medium, {1,2,3} → low. -/
theorem C5_priority_table (l i : String) (hl : l ∈ riskLevels) (hi : i ∈ riskLevels) :
    (getRiskScore RiskLevelVeryLow = 1 ∧ getRiskScore RiskLevelLow = 1
      ∧ getRiskScore RiskLevelMedium = 2 ∧ getRiskScore RiskLevelHigh = 3
      ∧ getRiskScore RiskLevelVeryHigh = 4)
    ∧ getRiskScore RiskLevelVeryLow * getRiskScore i
        = getRiskScore RiskLevelLow * getRiskScore i
    ∧ (calculatePriority l i = PriorityCritical ↔ getRiskScore l * getRiskScore i = 16)
    ∧ (calculatePriority l i = PriorityHigh
        ↔ (getRiskScore l * getRiskScore i = 9 ∨ getRiskScore l * getRiskScore i = 12))
    ∧ (calculatePriority l i = PriorityMedium
        ↔ (getRiskScore l * getRiskScore i = 4 ∨ getRiskScore l * getRiskScore i = 6
            ∨ getRiskScore l * getRiskScore i = 8))
    ∧ (calculatePriority l i = PriorityLow
        ↔ (getRiskScore l * getRiskScore i = 1 ∨ getRiskScore l * getRiskScore i = 2
            ∨ getRiskScore l * getRiskScore i = 3)) := by
  simp only [riskLevels, List.mem_cons, List.not_mem_nil, or_false] at hl hi
  rcases hl with rfl | rfl | rfl | rfl | rfl <;>
    rcases hi with rfl | rfl | rfl | rfl | rfl <;> decide

/-- C5 (witness): the table applied at likelihood high, impact very_high. -/
theorem C5_witness :
    calculatePriority RiskLevelHigh RiskLevelVeryHigh = PriorityHigh
    ∧ getRiskScore RiskLevelHigh * getRiskScore RiskLevelVeryHigh = 12 := by
  have h := C5_priority_table RiskLevelHigh RiskLevelVeryHigh (by decide) (by decide)
  exact ⟨h.2.2.2.1.mpr (by decide), by decide⟩

/-- C2 (counterexample): an organization whose validation yields zero
errors, zero warnings and exactly one info finding scores exactly 100,
because `int(float64(1) * 0.5)` truncates to 0 — so score 100 does not
imply a total finding count of 0. -/
theorem C2_counterexample :
    GetComplianceScore orgC2 = 100
    ∧ (ValidateOrganization orgC2).Errors.length
        + (ValidateOrganization orgC2).Warnings.length
        + (ValidateOrganization orgC2).Infos.length = 1 := by
  have hE : (ValidateOrganization orgC2).Errors.length = 0 := by decide
  have hW : (ValidateOrganization orgC2).Warnings.length = 0 := by decide
  have hI : (ValidateOrganization orgC2).Infos.length = 1 := by decide
  have hdef : GetComplianceScore orgC2
      = complianceScoreOfCounts (ValidateOrganization orgC2).Errors.length
          (ValidateOrganization orgC2).Warnings.length
          (ValidateOrganization orgC2).Infos.length := rfl
  refine ⟨?_, by omega⟩
  rw [hdef, hE, hW, hI]
  norm_num [complianceScoreOfCounts]

/-- C2 (amended): the score always lies in [0,100], and it equals exactly
100 iff the penalty is zero — that is, iff there are no errors, no
warnings, and at most one info finding (a single info truncates to zero
penalty), rather than iff the total finding count is zero. -/
theorem C2_score_range (org : Organization) :
    0 ≤ GetComplianceScore org ∧ GetComplianceScore org ≤ 100
    ∧ (GetComplianceScore org = 100
        ↔ (ValidateOrganization org).Errors = []
          ∧ (ValidateOrganization org).Warnings = []
          ∧ (ValidateOrganization org).Infos.length ≤ 1) := by
  have hdef : GetComplianceScore org
      = complianceScoreOfCounts (ValidateOrganization org).Errors.length
          (ValidateOrganization org).Warnings.length
          (ValidateOrganization org).Infos.length := rfl
  rw [hdef]
  refine ⟨complianceScore_nonneg _ _ _, complianceScore_le_100 _ _ _, ?_⟩
  rw [complianceScore_eq_100_iff]
  constructor
  · rintro ⟨hE, hW, hI⟩
    exact ⟨List.length_eq_zero.mp hE, List.length_eq_zero.mp hW, hI⟩
  · rintro ⟨hE, hW, hI⟩
    exact ⟨by simp [hE], by simp [hW], hI⟩

/-- C3 (counterexample): for an organization with zero errors, zero
warnings and three infos, the code's penalty is `int(0.5*3) = 1`
(truncation), giving score 800/9, while the claimed shared rounding gives
`round(1.5) = 2` and score 700/9 — the claim's formula disagrees with the
code at this input. -/
theorem C3_counterexample :
    (ValidateOrganization orgC3).Errors.length = 0
    ∧ (ValidateOrganization orgC3).Warnings.length = 0
    ∧ (ValidateOrganization orgC3).Infos.length = 3
    ∧ GetComplianceScore orgC3 ≠ specClaimedScore 0 0 3 := by
  have hE : (ValidateOrganization orgC3).Errors.length = 0 := by decide
  have hW : (ValidateOrganization orgC3).Warnings.length = 0 := by decide
  have hI : (ValidateOrganization orgC3).Infos.length = 3 := by decide
  refine ⟨hE, hW, hI, ?_⟩
  have hdef : GetComplianceScore orgC3
      = complianceScoreOfCounts (ValidateOrganization orgC3).Errors.length
          (ValidateOrganization orgC3).Warnings.length
          (ValidateOrganization orgC3).Infos.length := rfl
  have h1 : GetComplianceScore orgC3 = 800 / 9 := by
    rw [hdef, hE, hW, hI]
    norm_num [complianceScoreOfCounts]
  have h2 : specClaimedScore 0 0 3 = 700 / 9 := by
    simp only [specClaimedScore, specRound]
    have hround : ⌊(1 : ℚ) / 2 * ((3 : Nat) : ℚ) + 1 / 2⌋ = 2 := by
      norm_num
    rw [hround]
    rw [max_eq_right (by norm_num)]
    norm_num
  rw [h1, h2]
  norm_num

/-- C3 (amended): for every organization with at least one finding, the
score equals `100·(1 − penalty/maxPossible)` floored at 0, where
`penalty = 3·E + 1·W + I/2` with the info contribution computed by a single
shared truncation toward zero of `0.5·I` (not rounding to nearest), and
`maxPossible = 3·(E+W+I)`. -/
theorem C3_score_formula (org : Organization)
    (h : (ValidateOrganization org).Errors.length
          + (ValidateOrganization org).Warnings.length
          + (ValidateOrganization org).Infos.length ≠ 0) :
    GetComplianceScore org
      = max 0 (100 * (1 -
          ((3 * (ValidateOrganization org).Errors.length
              + 1 * (ValidateOrganization org).Warnings.length
              + (ValidateOrganization org).Infos.length / 2 : Nat) : ℚ)
            / ((3 * ((ValidateOrganization org).Errors.length
                + (ValidateOrganization org).Warnings.length
                + (ValidateOrganization org).Infos.length) : Nat) : ℚ))) :=
  complianceScore_closed_form _ _ _ h

/-- C3 (witness): the amended formula at the three-info organization. -/
theorem C3_witness :
    GetComplianceScore orgC3
      = max 0 (100 * (1 -
          ((3 * (ValidateOrganization orgC3).Errors.length
              + 1 * (ValidateOrganization orgC3).Warnings.length
              + (ValidateOrganization orgC3).Infos.length / 2 : Nat) : ℚ)
            / ((3 * ((ValidateOrganization orgC3).Errors.length
                + (ValidateOrganization orgC3).Warnings.length
                + (ValidateOrganization orgC3).Infos.length) : Nat) : ℚ))) :=
  C3_score_formula orgC3 (by decide)

/-- C8: operations with an unmet precondition — `IdentifyRisk` with an
empty risk ID or description, `AssessRisk` on an unknown risk ID,
`UpdateObjectiveProgress` on an unknown objective ID, and `StartAudit` on
an unknown audit or one not in planned status — return a failure result and
leave the manager state completely unchanged. -/
theorem C8_failed_preconditions_atomic :
    (∀ (rm : RiskManager) (now : Time) (risk : Risk),
        (risk.ID = "" ∨ risk.Description = "") →
        (IdentifyRisk rm now risk).2.isSome = true ∧ (IdentifyRisk rm now risk).1 = rm)
    ∧ (∀ (rm : RiskManager) (now : Time) (riskID likelihood impact : String),
        alistLookup riskID rm.Risks = none →
        (AssessRisk rm now riskID likelihood impact).2.isSome = true
          ∧ (AssessRisk rm now riskID likelihood impact).1 = rm)
    ∧ (∀ (qom : QualityObjectivesManager) (objectiveID : String)
          (progress : ObjectiveProgress),
        alistLookup objectiveID qom.Objectives = none →
        (UpdateObjectiveProgress qom objectiveID progress).2.isSome = true
          ∧ (UpdateObjectiveProgress qom objectiveID progress).1 = qom)
    ∧ (∀ (am : AuditManager) (auditID : String) (startDate now : Time),
        (alistLookup auditID am.Audits = none
          ∨ ∃ audit, alistLookup auditID am.Audits = some audit
              ∧ audit.Status ≠ AuditStatusPlanned) →
        (StartAudit am auditID startDate now).2.isSome = true
          ∧ (StartAudit am auditID startDate now).1 = am) := by
  refine ⟨?_, ?_, ?_, ?_⟩
  · intro rm now risk h
    by_cases hid : risk.ID = ""
    · simp [IdentifyRisk, hid]
    · rcases h with h | h
      · exact absurd h hid
      · simp [IdentifyRisk, hid, h]
  · intro rm now riskID likelihood impact h
    simp [AssessRisk, h]
  · intro qom objectiveID progress h
    simp [UpdateObjectiveProgress, h]
  · intro am auditID startDate now h
    rcases h with h | ⟨audit, hlook, hstat⟩
    · simp [StartAudit, h]
    · simp [StartAudit, hlook, hstat]

/-- C8 (witness): the four failure cases at concrete inputs — a risk with
no ID, an unknown risk ID, an unknown objective ID, and an audit already in
progress. -/
theorem C8_witness :
    ((IdentifyRisk {} 0 { Description := "d" }).2.isSome = true
      ∧ (IdentifyRisk {} 0 { Description := "d" }).1 = {})
    ∧ ((AssessRisk {} 0 "missing" RiskLevelHigh RiskLevelHigh).2.isSome = true
      ∧ (AssessRisk {} 0 "missing" RiskLevelHigh RiskLevelHigh).1 = {})
    ∧ ((UpdateObjectiveProgress {} "missing" {}).2.isSome = true
      ∧ (UpdateObjectiveProgress {} "missing" {}).1 = {})
    ∧ ((StartAudit amC8 "A1" 1 2).2.isSome = true ∧ (StartAudit amC8 "A1" 1 2).1 = amC8) :=
  ⟨C8_failed_preconditions_atomic.1 {} 0 { Description := "d" } (Or.inl rfl),
   C8_failed_preconditions_atomic.2.1 {} 0 "missing" RiskLevelHigh RiskLevelHigh rfl,
   C8_failed_preconditions_atomic.2.2.1 {} "missing" {} rfl,
   C8_failed_preconditions_atomic.2.2.2 amC8 "A1" 1 2 (Or.inr ⟨auditC8, rfl, by decide⟩)⟩

/-- C6: with a leadership block present, the clause-5.1 checker's
leadership_commitment findings are exactly one error naming each of the
twelve required commitment tags that is absent from the organization's
commitment list, in the required order, and none for a present tag. -/
theorem C6_missing_commitment_findings (org : Organization) (ld : Leadership)
    (h : org.Leadership = some ld) :
    (validateLeadership org).Errors.filter (fun e => e.Field == "leadership_commitment")
      = (requiredCommitments.filter (fun t => !(ld.Commitment.contains t))).map
          missingCommitmentError := by
  simp only [validateLeadership, h]
  rw [commitmentStep_fold, List.filter_append]
  have hmap : ((requiredCommitments.filter (fun t => !(ld.Commitment.contains t))).map
        missingCommitmentError).filter (fun e => e.Field == "leadership_commitment")
      = (requiredCommitments.filter (fun t => !(ld.Commitment.contains t))).map
          missingCommitmentError := by
    rw [List.filter_eq_self]
    intro e he
    obtain ⟨t, _, rfl⟩ := List.mem_map.mp he
    rfl
  rw [hmap]
  by_cases htm : ld.TopManagement = []
  · rw [if_pos htm]
    rfl
  · rw [if_neg htm]
    rfl

/-- C6 (witness): eleven of the twelve tags present yields exactly the one
missing-commitment error for customer_focus. -/
theorem C6_witness :
    (validateLeadership orgC6).Errors.filter (fun e => e.Field == "leadership_commitment")
      = [missingCommitmentError CommitmentCustomerFocus] := by
  have h := C6_missing_commitment_findings orgC6 ldC6 rfl
  rw [h]
  decide

/-- C9: with a QMS present, the clause-6.1 warning "no risks identified" is
emitted exactly when the flattened risk total (QMS-level risks plus every
process's own risks, no deduplication) is 0, and the "no opportunities"
info exactly when the flattened opportunity total is 0. -/
theorem C9_flattened_totals (org : Organization) (qms : QualityManagementSystem)
    (h : org.QMS = some qms) :
    ((validateRisksOpportunities org).Warnings.countP (fun e => e.Field == "risks")
        = if qms.Risks.length + (qms.Processes.map (fun p => p.Risks.length)).sum = 0
          then 1 else 0)
    ∧ ((validateRisksOpportunities org).Infos.countP (fun e => e.Field == "opportunities")
        = if qms.Opportunities.length
              + (qms.Processes.map (fun p => p.Opportunities.length)).sum = 0
          then 1 else 0) := by
  simp only [validateRisksOpportunities, h, foldl_add_sum]
  by_cases hR : qms.Risks.length + (qms.Processes.map (fun p => p.Risks.length)).sum = 0 <;>
    by_cases hO : qms.Opportunities.length
        + (qms.Processes.map (fun p => p.Opportunities.length)).sum = 0 <;>
    simp only [hR, hO, if_true, if_false, oppFold_Warnings, riskFold_Warnings,
      riskFold_Infos, oppFold_Infos, ValidationResult.addInfo_Warnings,
      ValidationResult.addWarning_Warnings, ValidationResult.addWarning_Infos,
      ValidationResult.addInfo_Infos, ValidationResult.empty_Warnings,
      ValidationResult.empty_Infos, List.countP_append,
      countP_mitigationWarning_risks, countP_opportunityActionInfo_opps] <;>
    simp [List.countP_cons]

/-- C9 (witness): a QMS with no risks anywhere and one QMS-level
opportunity produces the aggregate risk warning and no aggregate
opportunity info. -/
theorem C9_witness :
    (validateRisksOpportunities orgC9).Warnings.countP (fun e => e.Field == "risks") = 1
    ∧ (validateRisksOpportunities orgC9).Infos.countP
        (fun e => e.Field == "opportunities") = 0 := by
  have h := C9_flattened_totals orgC9 qmsC9 rfl
  exact ⟨h.1.trans (by decide), h.2.trans (by decide)⟩

/-- C10: with a QMS present, the clause-6.1 per-record findings range over
the QMS-level lists only: the mitigation warnings are exactly one per
QMS-level risk with no mitigation actions and status not mitigated, and the
action infos exactly one per QMS-level opportunity with no actions and
status not realized — risks and opportunities nested in processes never
produce such findings (the right-hand sides do not depend on processes). -/
theorem C10_per_record_findings (org : Organization) (qms : QualityManagementSystem)
    (h : org.QMS = some qms) :
    ((validateRisksOpportunities org).Warnings.filter
        (fun e => e.Message == "Risk should have mitigation actions defined")
      = (qms.Risks.enum.filter
          (fun p => decide (p.2.Mitigation = [] ∧ p.2.Status ≠ RiskStatusMitigated))).map
          (fun p => mitigationWarning p.1))
    ∧ ((validateRisksOpportunities org).Infos.filter
        (fun e => e.Message == "Opportunity should have actions defined for realization")
      = (qms.Opportunities.enum.filter
          (fun p => decide (p.2.Actions = [] ∧ p.2.Status ≠ OpportunityStatusRealized))).map
          (fun p => opportunityActionInfo p.1)) := by
  have hmapw : ∀ (l : List (Nat × Risk)),
      ((l.map (fun p => mitigationWarning p.1)).filter
          (fun e => e.Message == "Risk should have mitigation actions defined"))
        = l.map (fun p => mitigationWarning p.1) := by
    intro l
    rw [List.filter_eq_self]
    intro e he
    obtain ⟨p, _, rfl⟩ := List.mem_map.mp he
    rfl
  have hmapi : ∀ (l : List (Nat × Opportunity)),
      ((l.map (fun p => opportunityActionInfo p.1)).filter
          (fun e => e.Message == "Opportunity should have actions defined for realization"))
        = l.map (fun p => opportunityActionInfo p.1) := by
    intro l
    rw [List.filter_eq_self]
    intro e he
    obtain ⟨p, _, rfl⟩ := List.mem_map.mp he
    rfl
  simp only [validateRisksOpportunities, h]
  by_cases hR : qms.Processes.foldl (fun n process => n + process.Risks.length)
      qms.Risks.length = 0 <;>
    by_cases hO : qms.Processes.foldl (fun n process => n + process.Opportunities.length)
        qms.Opportunities.length = 0 <;>
    simp only [hR, hO, if_true, if_false, oppFold_Warnings, riskFold_Warnings,
      riskFold_Infos, oppFold_Infos, ValidationResult.addInfo_Warnings,
      ValidationResult.addWarning_Warnings, ValidationResult.addWarning_Infos,
      ValidationResult.addInfo_Infos, ValidationResult.empty_Warnings,
      ValidationResult.empty_Infos, List.filter_append, hmapw, hmapi] <;>
    simp [List.filter_cons]

/-- C10 (witness): one unmitigated QMS-level risk and one actionless
QMS-level opportunity yield exactly their two per-record findings even
though a process also holds an unmitigated risk. -/
theorem C10_witness :
    (validateRisksOpportunities orgC10).Warnings.filter
        (fun e => e.Message == "Risk should have mitigation actions defined")
      = [mitigationWarning 0]
    ∧ (validateRisksOpportunities orgC10).Infos.filter
        (fun e => e.Message == "Opportunity should have actions defined for realization")
      = [opportunityActionInfo 0] := by
  have h := C10_per_record_findings orgC10 qmsC10 rfl
  exact ⟨h.1.trans (by decide), h.2.trans (by decide)⟩

theorem updateRegister_top_ten (rm : RiskManager) (now : Time) :
    RegisterTopTen (updateRegister rm now) := by
  unfold RegisterTopTen updateRegister
  simp only []
  have hlensort : (sortEntriesDesc (rm.Risks.map (fun p => riskEntryOf p.1 p.2 now))).length
      = rm.Risks.length := by
    rw [length_sortEntriesDesc, List.length_map]
  refine ⟨?_, ?_, ?_, ?_⟩
  · by_cases hlen :
        (sortEntriesDesc (rm.Risks.map (fun p => riskEntryOf p.1 p.2 now))).length > 10
    · rw [if_pos hlen]
    · rw [if_neg hlen]
      exact (List.take_of_length_le (by omega)).symm
  · by_cases hlen :
        (sortEntriesDesc (rm.Risks.map (fun p => riskEntryOf p.1 p.2 now))).length > 10
    · rw [if_pos hlen, List.length_take, hlensort]
    · rw [if_neg hlen, hlensort]
      rw [hlensort] at hlen
      omega
  · by_cases hlen :
        (sortEntriesDesc (rm.Risks.map (fun p => riskEntryOf p.1 p.2 now))).length > 10
    · rw [if_pos hlen]
      exact List.Pairwise.sublist (List.take_sublist 10 _) (pairwise_sortEntriesDesc _)
    · rw [if_neg hlen]
      exact pairwise_sortEntriesDesc _
  · exact pairwise_sortEntriesDesc _

/-- C7: the register rebuilt by `updateRegister` — which every
register-recomputing risk-manager operation ends by calling — always has a
critical-risks view that is the 10-entry (or shorter) top slice of the full
register sorted by score descending, with exactly `min 10 n` entries; the
same holds of the post-state of every successful `IdentifyRisk`,
`AssessRisk` and `MitigateRisk`. -/
theorem C7_register_top_ten :
    (∀ (rm : RiskManager) (now : Time), RegisterTopTen (updateRegister rm now))
    ∧ (∀ (rm : RiskManager) (now : Time) (risk : Risk),
        (IdentifyRisk rm now risk).2 = none → RegisterTopTen (IdentifyRisk rm now risk).1)
    ∧ (∀ (rm : RiskManager) (now : Time) (riskID likelihood impact : String),
        (AssessRisk rm now riskID likelihood impact).2 = none
          → RegisterTopTen (AssessRisk rm now riskID likelihood impact).1)
    ∧ (∀ (rm : RiskManager) (now : Time) (riskID : String) (actions : List Action),
        (MitigateRisk rm now riskID actions).2 = none
          → RegisterTopTen (MitigateRisk rm now riskID actions).1) := by
  refine ⟨updateRegister_top_ten, ?_, ?_, ?_⟩
  · intro rm now risk hok
    by_cases h1 : risk.ID = ""
    · simp [IdentifyRisk, h1] at hok
    · by_cases h2 : risk.Description = ""
      · simp [IdentifyRisk, h1, h2] at hok
      · simp only [IdentifyRisk, h1, h2, if_false]
        exact updateRegister_top_ten _ _
  · intro rm now riskID likelihood impact hok
    cases hlook : alistLookup riskID rm.Risks with
    | none => simp [AssessRisk, hlook] at hok
    | some r0 =>
      simp only [AssessRisk, hlook]
      exact updateRegister_top_ten _ _
  · intro rm now riskID actions hok
    cases hlook : alistLookup riskID rm.Risks with
    | none => simp [MitigateRisk, hlook] at hok
    | some r0 =>
      simp only [MitigateRisk, hlook]
      exact updateRegister_top_ten _ _

/-- C7 (witness): the invariant after a successful concrete assessment. -/
theorem C7_witness :
    RegisterTopTen (AssessRisk rmC7 5 "R1" RiskLevelHigh RiskLevelMedium).1 :=
  C7_register_top_ten.2.2.1 rmC7 5 "R1" RiskLevelHigh RiskLevelMedium (by decide)
